import Mathlib

/-!
Verification development for the hand-tool-monitor kiosk controller
(src/hand-tool-monitor.py).  The program is a single cooperative loop:
a startup media sequence, then a dispatcher that runs one action at a
time (media playback or a telemetry dashboard), interprets the cause
that made the action return, and schedules the next action.  Buttons
are sampled from GPIO pins; telemetry is read over Modbus.

The embedding below translates the relevant pieces of the source into
executable Lean functions.  Time is modelled in milliseconds as `Nat`
(the source uses float seconds: DEBOUNCE_TIME = 0.15 s = 150 ms, the
settle sleep is 0.02 s = 20 ms).  Sensor readings are modelled as `Rat`
(the source uses Python floats; the clamping logic only compares and
multiplies, which the rational model performs exactly).
-/

/-! ## Constants (lines 18-42 of the source) -/

def BUTTON_PINS : List Nat := [4, 17, 27, 23, 24]

def BUTTON_MEDIA_MAP : List (Nat × Nat) := [(4, 0), (17, 1), (23, 2), (24, 3)]

def BUTTON_VOLTAGE_DISPLAY : Nat := 27

def STARTUP_MEDIA_COUNT : Nat := 4

def DEBOUNCE_TIME_MS : Nat := 150

def SETTLE_MS : Nat := 20

/-- Lookup of a pin in BUTTON_MEDIA_MAP (`pin in BUTTON_MEDIA_MAP` /
`BUTTON_MEDIA_MAP[pin]` in the source). -/
def buttonMediaLookup (pin : Nat) : Option Nat :=
  BUTTON_MEDIA_MAP.lookup pin

/-! ## Actions and interrupt causes

The source dispatches on the result of a running action: `None`,
the string "QUIT", or a GPIO pin number.  The queued next action is
either `display_voltage_current` (the telemetry screen), a lambda
playing `media_files[idx]`, or the string "QUIT" (startup only). -/

inductive InterruptCause where
  | none
  | quit
  | buttonPressed (pin : Nat)
deriving DecidableEq, Repr

inductive NextAction where
  | showTelemetry
  | showMedia (idx : Nat)
  | quitSignal
deriving DecidableEq, Repr

inductive DispatchStep where
  | terminate
  | queue (a : NextAction)
  | idle
deriving DecidableEq, Repr

/-- Lines 641-654: the branch cascade run when a finished action returned a
button pin (`pin == BUTTON_VOLTAGE_DISPLAY` / `pin in BUTTON_MEDIA_MAP` /
fallback `display_voltage_current`).  `mediaCount` is `len(media_files)`. -/
def resultPressAction (pin mediaCount : Nat) : NextAction :=
  if pin = BUTTON_VOLTAGE_DISPLAY then .showTelemetry
  else
    match buttonMediaLookup pin with
    | some idx => if idx < mediaCount then .showMedia idx else .showTelemetry
    | Option.none => .showTelemetry

/-- Lines 631-657: handling of `action_result` in the main loop.
`"QUIT"` stops the loop; a pin in BUTTON_PINS queues `resultPressAction`;
any other non-None result defaults to the telemetry screen (line 655-657);
`None` leaves `next_action = None`, so the loop falls into the idle
event/button polling block. -/
def handleActionResult (res : InterruptCause) (mediaCount : Nat) : DispatchStep :=
  match res with
  | .quit => .terminate
  | .buttonPressed pin =>
      if BUTTON_PINS.contains pin then .queue (resultPressAction pin mediaCount)
      else .queue .showTelemetry
  | .none => .idle

/-- Modelled from the spec's words (section 4.6 Running and section 6
button→action map), for comparison with `handleActionResult`:
Quit → Terminating; ButtonPressed c → map lookup for c, the dedicated
telemetry button shows telemetry, fallback ShowTelemetry when c has no
mapping; None → Idle. -/
def specResolve (res : InterruptCause) : DispatchStep :=
  match res with
  | .quit => .terminate
  | .buttonPressed c =>
      .queue
        (if c = BUTTON_VOLTAGE_DISPLAY then .showTelemetry
         else
           match buttonMediaLookup c with
           | some k => .showMedia k
           | Option.none => .showTelemetry)
  | .none => .idle

/-- Lines 679-692: the branch cascade run when an idle-loop press on `pin`
is accepted.  Unlike the action-result cascade, the final fallback is
commented out in the source, so an unmapped pin schedules nothing. -/
def idlePressAction (pin mediaCount : Nat) : Option NextAction :=
  if pin = BUTTON_VOLTAGE_DISPLAY then some .showTelemetry
  else
    match buttonMediaLookup pin with
    | some idx => some (if idx < mediaCount then .showMedia idx else .showTelemetry)
    | Option.none => Option.none

/-! ## Helper lemmas about the concrete button configuration -/

theorem buttonMediaLookup_eq_none (pin : Nat)
    (h4 : pin ≠ 4) (h17 : pin ≠ 17) (h23 : pin ≠ 23) (h24 : pin ≠ 24) :
    buttonMediaLookup pin = Option.none := by
  have b4 : (pin == 4) = false := by simpa using h4
  have b17 : (pin == 17) = false := by simpa using h17
  have b23 : (pin == 23) = false := by simpa using h23
  have b24 : (pin == 24) = false := by simpa using h24
  simp [buttonMediaLookup, BUTTON_MEDIA_MAP, List.lookup, b4, b17, b23, b24]

theorem buttonMediaLookup_lt_four (pin idx : Nat)
    (h : buttonMediaLookup pin = some idx) : idx < 4 := by
  by_cases h4 : pin = 4
  · subst h4; simp [buttonMediaLookup, BUTTON_MEDIA_MAP, List.lookup] at h; omega
  by_cases h17 : pin = 17
  · subst h17; simp [buttonMediaLookup, BUTTON_MEDIA_MAP, List.lookup] at h; omega
  by_cases h23 : pin = 23
  · subst h23; simp [buttonMediaLookup, BUTTON_MEDIA_MAP, List.lookup] at h; omega
  by_cases h24 : pin = 24
  · subst h24; simp [buttonMediaLookup, BUTTON_MEDIA_MAP, List.lookup] at h; omega
  rw [buttonMediaLookup_eq_none pin h4 h17 h23 h24] at h
  exact absurd h (by simp)

theorem buttonPins_not_mem (pin : Nat)
    (h4 : pin ≠ 4) (h17 : pin ≠ 17) (h27 : pin ≠ 27) (h23 : pin ≠ 23) (h24 : pin ≠ 24) :
    pin ∉ BUTTON_PINS := by
  simp [BUTTON_PINS, h4, h17, h27, h23, h24]

/-- C1: for every interrupt cause returned by a running action, the
dispatcher schedules exactly one next step, equal to the one the spec's
resolution rule prescribes: Quit terminates, ButtonPressed c queues the
mapped action (ShowTelemetry fallback for unmapped pins), None enters
idle polling.  Being a function of (cause, map), it is idempotent: the
same cause always yields the same next step. -/
theorem C1_dispatch_resolution (res : InterruptCause) (mediaCount : Nat)
    (hmc : 4 ≤ mediaCount) :
    handleActionResult res mediaCount = specResolve res := by
  cases res with
  | none => rfl
  | quit => rfl
  | buttonPressed pin =>
      by_cases h4 : pin = 4
      · subst h4
        simp [handleActionResult, specResolve, resultPressAction,
          buttonMediaLookup, BUTTON_MEDIA_MAP, BUTTON_PINS,
          BUTTON_VOLTAGE_DISPLAY, List.lookup]
        omega
      by_cases h17 : pin = 17
      · subst h17
        simp [handleActionResult, specResolve, resultPressAction,
          buttonMediaLookup, BUTTON_MEDIA_MAP, BUTTON_PINS,
          BUTTON_VOLTAGE_DISPLAY, List.lookup]
        omega
      by_cases h27 : pin = 27
      · subst h27
        simp [handleActionResult, specResolve, resultPressAction,
          BUTTON_PINS, BUTTON_VOLTAGE_DISPLAY]
      by_cases h23 : pin = 23
      · subst h23
        simp [handleActionResult, specResolve, resultPressAction,
          buttonMediaLookup, BUTTON_MEDIA_MAP, BUTTON_PINS,
          BUTTON_VOLTAGE_DISPLAY, List.lookup]
        omega
      by_cases h24 : pin = 24
      · subst h24
        simp [handleActionResult, specResolve, resultPressAction,
          buttonMediaLookup, BUTTON_MEDIA_MAP, BUTTON_PINS,
          BUTTON_VOLTAGE_DISPLAY, List.lookup]
        omega
      have hc := buttonPins_not_mem pin h4 h17 h27 h23 h24
      have hl := buttonMediaLookup_eq_none pin h4 h17 h23 h24
      simp [handleActionResult, specResolve, hc, hl, h27, BUTTON_VOLTAGE_DISPLAY]

/-- Witness for C1 at a concrete cause: pin 17 is mapped to media index 1. -/
theorem C1_dispatch_resolution_witness :
    4 ≤ 4 ∧
      handleActionResult (.buttonPressed 17) 4 = specResolve (.buttonPressed 17) :=
  ⟨by decide, C1_dispatch_resolution (.buttonPressed 17) 4 (by decide)⟩

/-! ## Button sampling and debounce

Two different acceptance disciplines appear in the source:

Inside a running action (play_video_cv lines 240-248, display_static_image
lines 307-315, display_voltage_current lines 398-404, and both startup
polling loops), a press is accepted when the raw level is high and is
still high after a 0.02 s settle sleep; `last_press_times` is never
consulted or updated there.

In the idle block of the main loop (lines 671-693), a press on `pin` is
accepted when the raw level is high once (no settle re-read) and
`now - last_press_times[pin] > DEBOUNCE_TIME`; on acceptance the
timestamp is set to `now` before the dispatched action runs.

`raw : Nat → Bool` gives one channel's raw level as a function of time
in milliseconds. -/

/-- One idle-loop acceptance check for a single channel: raw high at `t`
and more than DEBOUNCE_TIME since `last`, the channel's last accepted
press (lines 673-674). -/
def idleAcceptAt (raw : Nat → Bool) (t last : Nat) : Bool :=
  raw t && decide (t - last > DEBOUNCE_TIME_MS)

/-- One in-action acceptance check for a single channel: raw high at `t`
and re-confirmed high after the 20 ms settle sleep (e.g. lines 399-401). -/
def actionAccept (raw : Nat → Bool) (t : Nat) : Bool :=
  raw t && raw (t + SETTLE_MS)

/-- Successive idle-loop ticks at times `ts` for one channel, threading
the `last_press_times` entry exactly as lines 671-676 do; returns the
times of the accepted presses. -/
def idleChannelTrace (raw : Nat → Bool) : List Nat → Nat → List Nat
  | [], _ => []
  | t :: ts, last =>
      if idleAcceptAt raw t last then t :: idleChannelTrace raw ts t
      else idleChannelTrace raw ts last

/-- The idle-loop button scan over a pin list (lines 672-693): the first
pin whose raw level is high and whose debounce interval has elapsed is
consumed: its timestamp is set to `now`, its action (if any) is queued,
and the loop breaks.  `raw` here maps a pin to its sampled level at this
tick.  Returns (consumed pin, queued action, updated timestamp map). -/
def idleScanLoop (raw : Nat → Bool) (now mediaCount : Nat) :
    List Nat → (Nat → Nat) → Option Nat × Option NextAction × (Nat → Nat)
  | [], lp => (Option.none, Option.none, lp)
  | p :: ps, lp =>
      if raw p && decide (now - lp p > DEBOUNCE_TIME_MS) then
        (some p, idlePressAction p mediaCount, fun q => if q = p then now else lp q)
      else idleScanLoop raw now mediaCount ps lp

/-- The in-action button scan (display_voltage_current lines 398-404; the
same shape appears in both playback loops): first pin reading high on
both the immediate read (`raw1`) and the post-settle read (`raw2`). -/
def actionScan (raw1 raw2 : Nat → Bool) : List Nat → Option Nat
  | [] => Option.none
  | p :: ps => if raw1 p && raw2 p then some p else actionScan raw1 raw2 ps

/-- An in-action interrupt poll over BUTTON_PINS together with the
`last_press_times` map: the running actions never read or write the map,
so it is returned unchanged. -/
def runActionInterrupt (raw1 raw2 : Nat → Bool) (lp : Nat → Nat) :
    Option Nat × (Nat → Nat) :=
  (actionScan raw1 raw2 BUTTON_PINS, lp)

/-! ## C6: unmapped channels -/

/-- C6 counterexample: pin 5 has no mapping and is not the telemetry
button.  As an action's interrupt cause it resolves to ShowTelemetry,
but in the idle-loop dispatch (lines 679-692) the ShowTelemetry fallback
is commented out, so the press schedules no action at all. -/
theorem C6_counterexample :
    buttonMediaLookup 5 = Option.none ∧ (5 ≠ BUTTON_VOLTAGE_DISPLAY) ∧
      handleActionResult (.buttonPressed 5) 4 = .queue .showTelemetry ∧
      idlePressAction 5 4 = Option.none := by
  refine ⟨by decide, by decide, ?_, by decide⟩
  decide

/-- C6 amended: a channel with no mapping resolves to ShowTelemetry when
it is returned as a running action's interrupt cause, but a press on it
during idle polling schedules no action (the fallback there is commented
out); with the shipped configuration every pin the idle loop polls has a
mapping, so the idle-loop gap is unreachable in practice. -/
theorem C6_amended (pin mediaCount : Nat)
    (h27 : pin ≠ BUTTON_VOLTAGE_DISPLAY)
    (hl : buttonMediaLookup pin = Option.none) :
    handleActionResult (.buttonPressed pin) mediaCount = .queue .showTelemetry ∧
      idlePressAction pin mediaCount = Option.none ∧
      ∀ p ∈ BUTTON_PINS, idlePressAction p mediaCount ≠ Option.none := by
  have h27n : pin ≠ 27 := h27
  refine ⟨?_, ?_, ?_⟩
  · by_cases hmem : BUTTON_PINS.contains pin
    · simp [handleActionResult, hmem, resultPressAction, h27, hl]
    · simp only [handleActionResult]
      rw [if_neg (by simpa using hmem)]
  · simp [idlePressAction, h27, hl]
  · intro p hp
    fin_cases hp <;> simp [idlePressAction, buttonMediaLookup,
      BUTTON_MEDIA_MAP, BUTTON_VOLTAGE_DISPLAY, List.lookup]

/-- Witness for C6 amended at the concrete unmapped pin 5. -/
theorem C6_amended_witness :
    (5 ≠ BUTTON_VOLTAGE_DISPLAY) ∧ buttonMediaLookup 5 = Option.none ∧
      handleActionResult (.buttonPressed 5) 4 = .queue .showTelemetry ∧
      idlePressAction 5 4 = Option.none :=
  ⟨by decide, by decide,
    (C6_amended 5 4 (by decide) (by decide)).1,
    (C6_amended 5 4 (by decide) (by decide)).2.1⟩

/-! ## C2: debounce discipline -/

theorem idleChannelTrace_mem_gt (raw : Nat → Bool) (ts : List Nat) :
    ∀ last x, x ∈ idleChannelTrace raw ts last → last + DEBOUNCE_TIME_MS < x := by
  induction ts with
  | nil => intro last x h; simp [idleChannelTrace] at h
  | cons t ts ih =>
      intro last x h
      by_cases ha : idleAcceptAt raw t last = true
      · simp only [idleChannelTrace] at h
        rw [if_pos ha] at h
        have hdt : DEBOUNCE_TIME_MS < t - last := by
          simp [idleAcceptAt] at ha
          exact ha.2
        rcases List.mem_cons.mp h with rfl | hmem
        · omega
        · have := ih t x hmem
          omega
      · simp only [idleChannelTrace] at h
        rw [if_neg ha] at h
        exact ih last x h

theorem idleChannelTrace_length_le (raw : Nat → Bool) (ts : List Nat) :
    ∀ last U, (∀ t ∈ ts, t ≤ U) →
      (idleChannelTrace raw ts last).length ≤ (U - last) / (DEBOUNCE_TIME_MS + 1) := by
  induction ts with
  | nil => intro last U _; simp [idleChannelTrace]
  | cons t ts ih =>
      intro last U hU
      by_cases ha : idleAcceptAt raw t last = true
      · have hdt : DEBOUNCE_TIME_MS < t - last := by
          simp [idleAcceptAt] at ha
          exact ha.2
        have htU : t ≤ U := hU t (List.mem_cons_self t ts)
        have hlen := ih t U (fun x hx => hU x (List.mem_cons_of_mem _ hx))
        simp only [idleChannelTrace]
        rw [if_pos ha]
        simp only [List.length_cons]
        have hstep : (U - t) / (DEBOUNCE_TIME_MS + 1) + 1
            ≤ (U - last) / (DEBOUNCE_TIME_MS + 1) := by
          have h1 : (U - t) + (DEBOUNCE_TIME_MS + 1) ≤ U - last := by omega
          calc (U - t) / (DEBOUNCE_TIME_MS + 1) + 1
              = ((U - t) + (DEBOUNCE_TIME_MS + 1)) / (DEBOUNCE_TIME_MS + 1) := by
                rw [Nat.add_div_right _ (by omega)]
            _ ≤ (U - last) / (DEBOUNCE_TIME_MS + 1) := Nat.div_le_div_right h1
        omega
      · simp only [idleChannelTrace]
        rw [if_neg ha]
        exact ih last U (fun x hx => hU x (List.mem_cons_of_mem _ hx))

/-- C2 counterexample: the claim, taken as both conditions in every
polling context, fails twice on the source.  The idle loop (lines
672-676) has no settle re-read: a level high only at t = 1000 ms and low
again 20 ms later is still accepted.  The in-action polls (e.g. lines
399-401) have no per-channel interval check: with the level held high,
presses are accepted at t = 200 and t = 250, only 50 ms ≤ DEBOUNCE_TIME
apart, so the per-channel count bound fails there as well. -/
theorem C2_counterexample :
    idleAcceptAt (fun t => decide (t = 1000)) 1000 0 = true ∧
      (fun t => decide (t = 1000)) (1000 + SETTLE_MS) = false ∧
      actionAccept (fun _ => true) 200 = true ∧
      actionAccept (fun _ => true) 250 = true ∧
      250 - 200 ≤ DEBOUNCE_TIME_MS := by
  refine ⟨by decide, by decide, by decide, by decide, by decide⟩

/-- C2 amended: the two debounce guards are split across contexts.  The
idle loop accepts a press only when more than DEBOUNCE_TIME has elapsed
since that channel's last idle-accepted press (single raw read, no
settle re-read), and consequently its accepted presses over any window
ending at U number at most (U - last)/DEBOUNCE_TIME + 1.  The playback,
telemetry-screen and startup polls accept a press only when the raw
level is re-confirmed high after the 20 ms settle delay, with no
interval check, so the count bound does not hold in those contexts. -/
theorem C2_amended (raw : Nat → Bool) (ts : List Nat) (last U : Nat)
    (hU : ∀ t ∈ ts, t ≤ U) :
    (idleChannelTrace raw ts last).length ≤ (U - last) / DEBOUNCE_TIME_MS + 1 ∧
      (∀ r : Nat → Bool, ∀ t, actionAccept r t = true → r (t + SETTLE_MS) = true) ∧
      (∀ t lp, idleAcceptAt raw t lp = true → lp + DEBOUNCE_TIME_MS < t) := by
  refine ⟨?_, ?_, ?_⟩
  · have h1 := idleChannelTrace_length_le raw ts last U hU
    have h2 : (U - last) / (DEBOUNCE_TIME_MS + 1) ≤ (U - last) / DEBOUNCE_TIME_MS :=
      Nat.div_le_div_left (by omega) (by decide)
    omega
  · intro r t h
    simp [actionAccept] at h
    exact h.2
  · intro t lp h
    simp [idleAcceptAt] at h
    omega

/-- Witness for C2 amended on a concrete tick trace: with the level held
high and ticks at 0, 100 and 200 ms, one press is accepted, within the
bound 200/150 + 1. -/
theorem C2_amended_witness :
    (idleChannelTrace (fun _ => true) [0, 100, 200] 0).length
      ≤ (200 - 0) / DEBOUNCE_TIME_MS + 1 :=
  (C2_amended (fun _ => true) [0, 100, 200] 0 200 (by decide)).1

/-! ## C8 and C9: idle-loop consumption and timestamp updates -/

theorem idleScanLoop_fst_eq_find (raw : Nat → Bool) (now mc : Nat)
    (pins : List Nat) (lp : Nat → Nat) :
    (idleScanLoop raw now mc pins lp).1
      = pins.find? (fun p => raw p && decide (now - lp p > DEBOUNCE_TIME_MS)) := by
  induction pins with
  | nil => simp [idleScanLoop]
  | cons p ps ih =>
      by_cases h : (raw p && decide (now - lp p > DEBOUNCE_TIME_MS)) = true
      · simp only [idleScanLoop]
        rw [if_pos h]
        simp [List.find?, h]
      · have h0 : (raw p && decide (now - lp p > DEBOUNCE_TIME_MS)) = false := by
          simpa using h
        simp only [idleScanLoop]
        rw [if_neg h]
        simp [List.find?, h0]
        exact ih

theorem idleScanLoop_consumed (raw : Nat → Bool) (now mc : Nat)
    (pins : List Nat) :
    ∀ (lp : Nat → Nat) (p : Nat),
      (idleScanLoop raw now mc pins lp).1 = some p →
        (idleScanLoop raw now mc pins lp).2.1 = idlePressAction p mc ∧
        (idleScanLoop raw now mc pins lp).2.2 p = now ∧
        ∀ q, q ≠ p → (idleScanLoop raw now mc pins lp).2.2 q = lp q := by
  induction pins with
  | nil => intro lp p h; simp [idleScanLoop] at h
  | cons r ps ih =>
      intro lp p h
      by_cases hacc : (raw r && decide (now - lp r > DEBOUNCE_TIME_MS)) = true
      · simp only [idleScanLoop] at h ⊢
        rw [if_pos hacc] at h ⊢
        simp only [Option.some.injEq] at h
        subst h
        refine ⟨rfl, by simp, ?_⟩
        intro q hq
        simp [hq]
      · simp only [idleScanLoop] at h ⊢
        rw [if_neg hacc] at h ⊢
        exact ih lp p h

/-- C8: in the idle block, the consumed press is exactly the first pin
in BUTTON_PINS order whose level is high and whose debounce interval has
elapsed (at most one per tick, by List.find?); when a press is consumed
(with the normal complement of media files), exactly one action is
scheduled, and no other channel's state is touched. -/
theorem C8_idle_single_consumption (raw : Nat → Bool) (now mc : Nat)
    (lp : Nat → Nat) :
    (idleScanLoop raw now mc BUTTON_PINS lp).1
      = BUTTON_PINS.find? (fun p => raw p && decide (now - lp p > DEBOUNCE_TIME_MS)) ∧
    ∀ p, (idleScanLoop raw now mc BUTTON_PINS lp).1 = some p →
      (idleScanLoop raw now mc BUTTON_PINS lp).2.1 ≠ Option.none ∧
      ∀ q, q ≠ p → (idleScanLoop raw now mc BUTTON_PINS lp).2.2 q = lp q := by
  refine ⟨idleScanLoop_fst_eq_find raw now mc BUTTON_PINS lp, ?_⟩
  intro p hp
  obtain ⟨hact, hup, hpres⟩ := idleScanLoop_consumed raw now mc BUTTON_PINS lp p hp
  refine ⟨?_, hpres⟩
  rw [hact]
  have hmem : p ∈ BUTTON_PINS := by
    rw [idleScanLoop_fst_eq_find raw now mc BUTTON_PINS lp] at hp
    exact List.mem_of_find?_eq_some hp
  have hcases : p = 4 ∨ p = 17 ∨ p = 27 ∨ p = 23 ∨ p = 24 := by
    simpa [BUTTON_PINS] using hmem
  rcases hcases with rfl | rfl | rfl | rfl | rfl <;>
    simp [idlePressAction, buttonMediaLookup, BUTTON_MEDIA_MAP,
      BUTTON_VOLTAGE_DISPLAY, List.lookup]

/-- Witness for C8: with pins 17 and 27 simultaneously high, the idle
scan consumes pin 17 (first in canonical order) and schedules an action. -/
theorem C8_idle_single_consumption_witness :
    (idleScanLoop (fun p => decide (p = 17 ∨ p = 27)) 1000 4 BUTTON_PINS
        (fun _ => 0)).2.1 ≠ Option.none :=
  ((C8_idle_single_consumption (fun p => decide (p = 17 ∨ p = 27)) 1000 4
      (fun _ => 0)).2 17 (by decide)).1

/-- C9 counterexample: with every level high and all timestamps 0, an
in-action interrupt poll accepts the press on pin 4 yet returns the
`last_press_times` map unchanged — pin 4's entry remains 0, so the
accepted press did not update the channel's timestamp. -/
theorem C9_counterexample :
    (runActionInterrupt (fun _ => true) (fun _ => true) (fun _ => 0)).1 = some 4 ∧
      ((runActionInterrupt (fun _ => true) (fun _ => true) (fun _ => 0)).2) 4 = 0 :=
  ⟨rfl, rfl⟩

/-- C9 amended: a press accepted by the idle loop updates that channel's
last-press timestamp to `now` immediately, before the dispatched action
runs on the next iteration; but a press accepted inside a running
action's interrupt polling never touches the timestamp map, so only the
20 ms double-read guards against re-triggering there. -/
theorem C9_amended (raw : Nat → Bool) (now mc : Nat) (lp : Nat → Nat) (p : Nat)
    (h : (idleScanLoop raw now mc BUTTON_PINS lp).1 = some p) :
    (idleScanLoop raw now mc BUTTON_PINS lp).2.2 p = now ∧
      ∀ r1 r2 : Nat → Bool, (runActionInterrupt r1 r2 lp).2 = lp := by
  refine ⟨(idleScanLoop_consumed raw now mc BUTTON_PINS lp p h).2.1, ?_⟩
  intro r1 r2
  rfl

/-- Witness for C9 amended: pin 4 pressed at t = 1000 ms in the idle
loop gets its timestamp set to 1000. -/
theorem C9_amended_witness :
    (idleScanLoop (fun _ => true) 1000 4 BUTTON_PINS (fun _ => 0)).2.2 4 = 1000 :=
  (C9_amended (fun _ => true) 1000 4 (fun _ => 0) 4 (by decide)).1

/-! ## Telemetry reader (lines 134-193)

The transport is modelled by oracles for one call: `ConnectResult` is
the outcome of `client.connect()` (an exception inside
check_modbus_connection also yields a failed connect, lines 148-150),
and `ReadResult` is the outcome of `client.read_holding_registers` plus
decoding: an error response (`response.isError()`), a pymodbus
ConnectionException, any other exception, or a decoded value.  State is
the pair of the `modbus_connected` flag and the socket-open status. -/

structure ModbusState where
  connected : Bool
  socketOpen : Bool
deriving DecidableEq, Repr

inductive ConnectResult where
  | ok
  | fail
  | exn
deriving DecidableEq, Repr

inductive ReadResult where
  | errorResponse
  | connException
  | otherException
  | ok (v : Rat)
deriving DecidableEq, Repr

/-- Lines 134-154: if the socket is not open, set the flag false and try
to connect (an exception during connect leaves the flag false);
otherwise assume connected.  Returns the flag plus the new state. -/
def check_modbus_connection (cEnv : ConnectResult) (s : ModbusState) :
    Bool × ModbusState :=
  if !s.socketOpen then
    match cEnv with
    | .ok => (true, ⟨true, true⟩)
    | .fail => (false, ⟨false, s.socketOpen⟩)
    | .exn => (false, ⟨false, s.socketOpen⟩)
  else (true, ⟨true, s.socketOpen⟩)

/-- Lines 156-183: read a float from two holding registers at `address`.
If the flag is down, try the connection first and return 0.0 on failure.
An error response sets the flag false and returns 0.0; a
ConnectionException sets the flag false, closes the socket, and returns
0.0; any other exception returns 0.0 with the flag untouched (the lines
clearing it are commented out); success marks the flag true. -/
def read_modbus_float32 (address : Nat) (cEnv : ConnectResult)
    (rEnv : ReadResult) (s : ModbusState) : Rat × ModbusState :=
  let checked := if !s.connected then check_modbus_connection cEnv s else (true, s)
  if !checked.1 then (0, checked.2)
  else
    match rEnv with
    | .errorResponse => (0, ⟨false, checked.2.socketOpen⟩)
    | .connException => (0, ⟨false, false⟩)
    | .otherException => (0, checked.2)
    | .ok v => (v, ⟨true, checked.2.socketOpen⟩)

/-- Line 185-188: voltage is the register pair at address 142. -/
def read_voltage (cEnv : ConnectResult) (rEnv : ReadResult) (s : ModbusState) :
    Rat × ModbusState :=
  read_modbus_float32 142 cEnv rEnv s

/-- Line 190-193: current is the register pair at address 150. -/
def read_current (cEnv : ConnectResult) (rEnv : ReadResult) (s : ModbusState) :
    Rat × ModbusState :=
  read_modbus_float32 150 cEnv rEnv s

/-- C3: a failed connect attempt, a transport-level error response, and a
transport (Connection-) exception each make the read return 0.0 with the
connection flag latched to disconnected; and whenever the transport does
not deliver a value (any of the failure outcomes, the non-transport
exception included), the call returns 0.0 — in particular this holds for
readVoltage and readCurrent on every call of an always-erroring
transport.  The embedding is a total function, which is the shallow
counterpart of the call never propagating an exception. -/
theorem C3_read_failure_degrades (address : Nat) (cEnv : ConnectResult)
    (rEnv : ReadResult) (s : ModbusState)
    (hfail : rEnv ≠ .ok 0 → ∀ v : Rat, rEnv ≠ .ok v) :
    ((rEnv = .errorResponse ∨ rEnv = .connException) →
        (read_modbus_float32 address cEnv rEnv s).1 = 0 ∧
        (read_modbus_float32 address cEnv rEnv s).2.connected = false) ∧
      (s.connected = false → s.socketOpen = false → cEnv ≠ .ok →
        (read_modbus_float32 address cEnv rEnv s).1 = 0 ∧
        (read_modbus_float32 address cEnv rEnv s).2.connected = false) ∧
      ((∀ v : Rat, rEnv ≠ .ok v) →
        (read_voltage cEnv rEnv s).1 = 0 ∧ (read_current cEnv rEnv s).1 = 0) := by
  refine ⟨?_, ?_, ?_⟩
  · rintro (rfl | rfl) <;>
      · cases s with
        | mk c so =>
            cases c <;> cases so <;> cases cEnv <;>
              simp [read_modbus_float32, check_modbus_connection]
  · rintro hc hso hok
    cases cEnv with
    | ok => exact absurd rfl hok
    | fail =>
        cases rEnv <;> simp [read_modbus_float32, check_modbus_connection, hc, hso]
    | exn =>
        cases rEnv <;> simp [read_modbus_float32, check_modbus_connection, hc, hso]
  · intro hnov
    cases rEnv with
    | ok v => exact absurd rfl (hnov v)
    | errorResponse =>
        cases s with
        | mk c so =>
            cases c <;> cases so <;> cases cEnv <;>
              simp [read_voltage, read_current, read_modbus_float32,
                check_modbus_connection]
    | connException =>
        cases s with
        | mk c so =>
            cases c <;> cases so <;> cases cEnv <;>
              simp [read_voltage, read_current, read_modbus_float32,
                check_modbus_connection]
    | otherException =>
        cases s with
        | mk c so =>
            cases c <;> cases so <;> cases cEnv <;>
              simp [read_voltage, read_current, read_modbus_float32,
                check_modbus_connection]

/-- Witness for C3: an error response on an open, connected transport
returns 0.0 and latches the disconnected flag. -/
theorem C3_read_failure_degrades_witness :
    (read_modbus_float32 142 .ok .errorResponse ⟨true, true⟩).1 = 0 ∧
      (read_modbus_float32 142 .ok .errorResponse ⟨true, true⟩).2.connected = false :=
  (C3_read_failure_degrades 142 .ok .errorResponse ⟨true, true⟩
      (fun _ v h => by cases h)).1 (Or.inl rfl)

/-! ## Telemetry screen numeric policy (lines 195-199 and 408-421) -/

/-- Lines 195-199: power is the absolute value of the product (the
isinstance guard is identity for numeric inputs, which the Rat model
always supplies). -/
def calculate_power (voltage current : Rat) : Rat :=
  |voltage * current|

/-- Lines 410-415 of display_voltage_current: one periodic sensor
refresh.  The raw voltage is kept only when strictly above 5.0, the raw
current only when strictly above 0.1; otherwise each is replaced by 0.0,
and power is derived from the clamped pair.  Returns (voltage, current,
power) as displayed. -/
def sensorRefresh (voltage current : Rat) : Rat × Rat × Rat :=
  let v := if voltage > 5 then voltage else 0
  let c := if current > 1/10 then current else 0
  (v, c, calculate_power v c)

/-- C7: on the telemetry screen a voltage reading in (0, 5.0) and a
current reading in (0, 0.1) are clamped to exactly 0.0 before power is
derived, and the displayed power is |V·I| of the clamped values (for
clamped readings, 0). -/
theorem C7_noise_floor_clamping (voltage current : Rat)
    (hv0 : 0 < voltage) (hv5 : voltage < 5)
    (hc0 : 0 < current) (hc1 : current < 1/10) :
    sensorRefresh voltage current = (0, 0, 0) ∧
      ∀ v c : Rat, (sensorRefresh v c).2.2
        = calculate_power (sensorRefresh v c).1 (sensorRefresh v c).2.1 := by
  constructor
  · have hv : ¬ voltage > 5 := by linarith
    have hc : ¬ current > 1/10 := by linarith
    simp only [sensorRefresh, calculate_power]
    rw [if_neg hv, if_neg hc]
    norm_num
  · intro v c
    rfl

/-- Witness for C7 at voltage 1.0, current 0.05. -/
theorem C7_noise_floor_clamping_witness :
    sensorRefresh 1 (1/20) = (0, 0, 0) :=
  (C7_noise_floor_clamping 1 (1/20) (by norm_num) (by norm_num)
      (by norm_num) (by norm_num)).1

/-- C10: the clamping comparisons are strict, so readings exactly at the
noise floors are clamped: voltage exactly 5.0 displays as 0.0 and
current exactly 0.1 displays as 0.0, while readings just above the
floors are kept. -/
theorem C10_boundary_clamped :
    sensorRefresh 5 (1/10) = (0, 0, 0) ∧
      (sensorRefresh 5 20).1 = 0 ∧
      (sensorRefresh 100 (1/10)).2.1 = 0 ∧
      (sensorRefresh 6 (2/10)).1 = 6 ∧
      (sensorRefresh 6 (2/10)).2.1 = 2/10 := by
  refine ⟨?_, ?_, ?_, ?_, ?_⟩ <;>
    norm_num [sensorRefresh, calculate_power]

/-! ## Media loading and process exit (lines 91-118 and 716-727) -/

/-- Line 95: the extension allowlist. -/
def mediaExtensions : List String :=
  [".png", ".jpg", ".jpeg", ".mp4", ".avi", ".mov"]

/-- Line 95: a file qualifies when its lowercased name ends with one of
the allowed extensions (strings are handled through their character
lists, which the source's lower/endswith act on). -/
def isMediaFile (f : String) : Bool :=
  mediaExtensions.any (fun ext => ext.data.isSuffixOf (f.data.map Char.toLower))

/-- Lines 94-95: `media_files` is the filtered directory listing
(`allFiles` stands for the sorted listing of plain files). -/
def media_files_of (allFiles : List String) : List String :=
  allFiles.filter isMediaFile

inductive StartupCheck where
  | abort (exitCode : Nat)
  | continueWith (warning : Bool)
deriving DecidableEq, Repr

/-- Lines 97-100: when fewer than STARTUP_MEDIA_COUNT media files are
found, an error line is printed but execution continues (the former
pygame.quit / sys.exit call is commented out); otherwise execution
continues silently.  No branch aborts. -/
def mediaStartupCheck (allFiles : List String) : StartupCheck :=
  if (media_files_of allFiles).length < STARTUP_MEDIA_COUNT then
    .continueWith true
  else
    .continueWith false

/-- Line 727: the `finally` block ends every run with `sys.exit()`,
whose argument-free form exits with status 0 on all paths, normal quit
and startup-warning runs alike. -/
def processExitCode : Nat := 0

/-- C4 counterexample: with only three qualifying media files the check
merely warns and continues — nothing aborts — and the process exit code
is 0, not non-zero. -/
theorem C4_counterexample :
    mediaStartupCheck ["a.png", "b.jpg", "c.mp4"] = .continueWith true ∧
      processExitCode = 0 := by
  constructor
  · decide
  · rfl

/-- C4 amended: a media count below the minimum only raises a warning
flag; the program never aborts at startup for the media count, and every
exit path uses exit code 0 (sys.exit() with no argument), for normal
quits and for short-media runs alike. -/
theorem C4_media_check_never_aborts (allFiles : List String) :
    (∀ n : Nat, mediaStartupCheck allFiles ≠ .abort n) ∧
      (mediaStartupCheck allFiles
        = .continueWith
            (decide ((media_files_of allFiles).length < STARTUP_MEDIA_COUNT))) ∧
      processExitCode = 0 := by
  refine ⟨?_, ?_, rfl⟩
  · intro n h
    by_cases hlen : (media_files_of allFiles).length < STARTUP_MEDIA_COUNT <;>
      simp [mediaStartupCheck, hlen] at h
  · by_cases hlen : (media_files_of allFiles).length < STARTUP_MEDIA_COUNT <;>
      simp [mediaStartupCheck, hlen]

/-- Witness for C4 amended at the three-file listing. -/
theorem C4_media_check_never_aborts_witness :
    mediaStartupCheck ["a.png", "b.jpg", "c.mp4"]
      = .continueWith
          (decide ((media_files_of ["a.png", "b.jpg", "c.mp4"]).length
            < STARTUP_MEDIA_COUNT)) :=
  (C4_media_check_never_aborts ["a.png", "b.jpg", "c.mp4"]).2.1

/-! ## Startup sequence (lines 481-600)

run_startup_sequence iterates `for i in range(STARTUP_MEDIA_COUNT)`,
plays entry i with the STARTUP_TIMEOUT duration cap, and inspects the
interrupt result `pressed_pin` of that entry (None when the cap or the
loop expired, a pin, or QUIT).  The environment is modelled by
`causes : Nat → InterruptCause`, entry index to the cause its capped
playback produced. -/

/-- Lines 566-591: handling of one startup entry's result.  QUIT sets
next_action = "QUIT" and breaks; a pin in BUTTON_PINS maps to its action
(dedicated telemetry pin, media map with range check, ShowTelemetry
fallbacks) and breaks; any other non-None result only logs a warning and
the loop continues, like the None (ran-to-cap) case. -/
def startupStep (cause : InterruptCause) (mediaCount : Nat) : Option NextAction :=
  match cause with
  | .quit => some .quitSignal
  | .buttonPressed p =>
      if BUTTON_PINS.contains p then
        some
          (if p = BUTTON_VOLTAGE_DISPLAY then .showTelemetry
           else
             match buttonMediaLookup p with
             | some idx => if idx < mediaCount then .showMedia idx else .showTelemetry
             | Option.none => .showTelemetry)
      else Option.none
  | .none => Option.none

/-- The startup loop over the entry indices: entry i runs only when
i < mediaCount (lines 487-489 break otherwise); a some result from
`startupStep` breaks the loop.  Returns (number of entries run,
interrupting action if any). -/
def startupLoop (mediaCount : Nat) (causes : Nat → InterruptCause) :
    List Nat → Nat × Option NextAction
  | [] => (0, Option.none)
  | i :: rest =>
      if i < mediaCount then
        match startupStep (causes i) mediaCount with
        | some a => (1, some a)
        | Option.none =>
            ((startupLoop mediaCount causes rest).1 + 1,
              (startupLoop mediaCount causes rest).2)
      else (0, Option.none)

/-- Lines 481-600: the whole startup sequence; when the loop was never
interrupted (and so next_action is not "QUIT"), the default next action
is the sensor display (lines 596-598). -/
def run_startup_sequence (mediaCount : Nat) (causes : Nat → InterruptCause) :
    Nat × NextAction :=
  match startupLoop mediaCount causes (List.range STARTUP_MEDIA_COUNT) with
  | (ran, some a) => (ran, a)
  | (ran, Option.none) => (ran, .showTelemetry)

theorem range_startup_count : List.range STARTUP_MEDIA_COUNT = [0, 1, 2, 3] := by
  decide

/-- C5: with at least 4 media files, an uninterrupted startup runs all 4
entries and defaults to ShowTelemetry; a button press during entry j
(entries before it uninterrupted) stops the sequence after j + 1 entries
with the button's mapped action queued; a quit cause during entry j
terminates the sequence directly with the quit signal. -/
theorem C5_startup_sequence (mediaCount : Nat) (causes : Nat → InterruptCause)
    (hmc : 4 ≤ mediaCount) :
    ((∀ i, i < 4 → causes i = .none) →
        run_startup_sequence mediaCount causes = (4, .showTelemetry)) ∧
      (∀ j p a, j < 4 → (∀ i, i < j → causes i = .none) →
        causes j = .buttonPressed p →
        startupStep (.buttonPressed p) mediaCount = some a →
        run_startup_sequence mediaCount causes = (j + 1, a)) ∧
      (∀ j, j < 4 → (∀ i, i < j → causes i = .none) → causes j = .quit →
        run_startup_sequence mediaCount causes = (j + 1, .quitSignal)) := by
  have hs0 : startupStep InterruptCause.none mediaCount = Option.none := rfl
  have hsq : startupStep InterruptCause.quit mediaCount = some .quitSignal := rfl
  have m0 : 0 < mediaCount := by omega
  have m1 : 1 < mediaCount := by omega
  have m2 : 2 < mediaCount := by omega
  have m3 : 3 < mediaCount := by omega
  refine ⟨?_, ?_, ?_⟩
  · intro hnone
    have e0 := hnone 0 (by omega)
    have e1 := hnone 1 (by omega)
    have e2 := hnone 2 (by omega)
    have e3 := hnone 3 (by omega)
    simp [run_startup_sequence, range_startup_count, startupLoop,
      e0, e1, e2, e3, hs0, m0, m1, m2, m3]
  · intro j p a hj hbefore hcause hstep
    interval_cases j
    · simp [run_startup_sequence, range_startup_count, startupLoop,
        hcause, hstep, m0]
    · have e0 := hbefore 0 (by omega)
      simp [run_startup_sequence, range_startup_count, startupLoop,
        e0, hs0, hcause, hstep, m0, m1]
    · have e0 := hbefore 0 (by omega)
      have e1 := hbefore 1 (by omega)
      simp [run_startup_sequence, range_startup_count, startupLoop,
        e0, e1, hs0, hcause, hstep, m0, m1, m2]
    · have e0 := hbefore 0 (by omega)
      have e1 := hbefore 1 (by omega)
      have e2 := hbefore 2 (by omega)
      simp [run_startup_sequence, range_startup_count, startupLoop,
        e0, e1, e2, hs0, hcause, hstep, m0, m1, m2, m3]
  · intro j hj hbefore hcause
    interval_cases j
    · simp [run_startup_sequence, range_startup_count, startupLoop,
        hcause, hsq, m0]
    · have e0 := hbefore 0 (by omega)
      simp [run_startup_sequence, range_startup_count, startupLoop,
        e0, hs0, hcause, hsq, m0, m1]
    · have e0 := hbefore 0 (by omega)
      have e1 := hbefore 1 (by omega)
      simp [run_startup_sequence, range_startup_count, startupLoop,
        e0, e1, hs0, hcause, hsq, m0, m1, m2]
    · have e0 := hbefore 0 (by omega)
      have e1 := hbefore 1 (by omega)
      have e2 := hbefore 2 (by omega)
      simp [run_startup_sequence, range_startup_count, startupLoop,
        e0, e1, e2, hs0, hcause, hsq, m0, m1, m2, m3]

/-- Witness for C5: a press on pin 17 during entry 1 ends the startup
after two entries with ShowMedia 1 queued. -/
theorem C5_startup_sequence_witness :
    run_startup_sequence 4 (fun i => if i = 1 then .buttonPressed 17 else .none)
      = (2, .showMedia 1) :=
  (C5_startup_sequence 4 (fun i => if i = 1 then .buttonPressed 17 else .none)
      (by decide)).2.1 1 17 (.showMedia 1) (by decide)
    (fun i hi => by
      have h0 : i = 0 := by omega
      subst h0
      rfl)
    rfl (by decide)
